import Mathlib

/-!
Verification of the End-to-End-LLM-ChatBot repository: a shallow embedding
of the conversation-context assembly and persistence path, covering the
storage adapters (app/sqlite_db.py, app/postgre_db.py,
app/mysql_workbench_db.py, app/aws_rds_db.py), the two chat services
(app/chatbot.py and app/services/chatbot.py), and the two HTTP endpoints
(app/main.py and app/api/fastapi_app.py).

The persisted chat_history table is modelled as a list of rows in id
(insertion) order; the SQL query `SELECT ... ORDER BY id DESC LIMIT n` is
modelled as taking the first n elements of the reversed list.  Exceptions
raised by the database drivers and the LLM backend are modelled by
explicit error-injection parameters, and fallible functions return
`Except`.
-/

/-- One persisted exchange row: `(user_input, chatbot_response)`. -/
abbrev Row := String × String

/-- Python `s.strip()`: remove leading and trailing whitespace. -/
def pyStrip (s : String) : String :=
  ⟨((s.data.dropWhile Char.isWhitespace).reverse.dropWhile Char.isWhitespace).reverse⟩

/-- Python tail slice `s[-k:]`.  For `k = 0` this is `s[0:]`, i.e. the whole
string; for `k > 0` it is the last `min k (length s)` characters. -/
def pySliceTail (s : String) (k : Nat) : String :=
  if k = 0 then s else ⟨s.data.drop (s.data.length - k)⟩

/-- Python `sep.join(xs)`. -/
def pyJoin (sep : String) : List String → String
  | [] => ""
  | [x] => x
  | x :: y :: xs => x ++ sep ++ pyJoin sep (y :: xs)

/-- The rows returned by `SELECT user_input, chatbot_response FROM
chat_history ORDER BY id DESC LIMIT ?` when the table holds `db` in
insertion order: newest first, at most `limit` of them.  This query is
shared verbatim by all four relational adapters. -/
def queryNewestFirst (db : List Row) (limit : Nat) : List Row :=
  db.reverse.take limit

/-- The fetched rows after the adapters run `rows.reverse()`: the most
recent `limit` rows, oldest first. -/
def fetchRows (db : List Row) (limit : Nat) : List Row :=
  (queryNewestFirst db limit).reverse

/-- One formatted context entry in app/postgre_db.py line 169,
app/mysql_workbench_db.py line 146 and app/aws_rds_db.py line 133:
`f"User: {u}\nAssistant: {b}"` (no truncation). -/
def plainEntry (r : Row) : String :=
  "User: " ++ r.1 ++ "\nAssistant: " ++ r.2

/-- The context string assembled by the non-truncating adapters:
`"\n".join([f"User: {u}\nAssistant: {b}" for u, b in rows])` applied to
the reversed query rows. -/
def plainContext (db : List Row) (limit : Nat) : String :=
  pyJoin "\n" ((fetchRows db limit).map plainEntry)

namespace Sqlite

/-- One formatted context entry in app/sqlite_db.py line 133:
`f"User: {u}\n Assistant: {b[-output_limit:]}"` — note the space after the
newline and the tail slice by the configured `output_limit`. -/
def renderEntry (outputLimit : Nat) (r : Row) : String :=
  "User: " ++ r.1 ++ "\n Assistant: " ++ pySliceTail r.2 outputLimit

/-- The context string assembled by app/sqlite_db.py `fetch_recent_chats`
on the success path (lines 122-137). -/
def fetchContext (outputLimit : Nat) (db : List Row) (limit : Nat) : String :=
  pyJoin "\n" ((fetchRows db limit).map (renderEntry outputLimit))

/-- app/sqlite_db.py `save_chat_history` (lines 79-113): INSERT one row;
the new row receives the next autoincrement id, i.e. goes to the end. -/
def save_chat_history (db : List Row) (u r : String) : List Row :=
  db ++ [(u, r)]

/-- The exception classes caught by app/sqlite_db.py `fetch_recent_chats`:
`OperationalError`, `DatabaseError`, and any other `Exception`. -/
inductive Err
  | operational
  | database
  | other
  deriving DecidableEq, Repr

/-- app/sqlite_db.py `fetch_recent_chats` (lines 116-153) with error
injection `e`: on success it returns the formatted context; every one of
its three exception handlers returns `""` (lines 139-149). -/
def fetch_recent_chats (e : Option Err) (outputLimit : Nat)
    (db : List Row) (limit : Nat) : Except Err String :=
  match e with
  | none => .ok (fetchContext outputLimit db limit)
  | some _ => .ok ""

end Sqlite

namespace Pg

/-- The exception classes caught by app/postgre_db.py `fetch_chathistory`:
`psycopg2.Error` and any other `Exception`. -/
inductive Err
  | driver
  | unexpected
  deriving DecidableEq, Repr

/-- app/postgre_db.py `fetch_chathistory` (lines 141-180) with error
injection: on success the plain context; a `psycopg2.Error` is re-raised
(line 176) while any other exception returns `""` (line 180). -/
def fetch_chathistory (e : Option Err) (db : List Row) (limit : Nat) :
    Except Err String :=
  match e with
  | none => .ok (plainContext db limit)
  | some .driver => .error .driver
  | some .unexpected => .ok ""

end Pg

namespace MySqlWb

/-- The exception classes caught by app/mysql_workbench_db.py
`fetch_chathistory`: `mysql.connector.Error` and any other `Exception`. -/
inductive Err
  | driver
  | unexpected
  deriving DecidableEq, Repr

/-- app/mysql_workbench_db.py `fetch_chathistory` (lines 131-157) with
error injection: on success the plain context; both exception handlers
re-raise (lines 151-157), so every failure propagates. -/
def fetch_chathistory (e : Option Err) (db : List Row) (limit : Nat) :
    Except Err String :=
  match e with
  | none => .ok (plainContext db limit)
  | some err => .error err

end MySqlWb

namespace Rds

/-- app/aws_rds_db.py `fetch_recent_chats` (lines 117-141) with error
injection: on success the plain context; its single `except Exception`
handler returns `""` (line 141). -/
def fetch_recent_chats (e : Option Unit) (db : List Row) (limit : Nat) :
    Except Unit String :=
  match e with
  | none => .ok (plainContext db limit)
  | some _ => .ok ""

end Rds

/-- The fixed fallback response substituted by
app/services/chatbot.py line 64. -/
def fallbackResponse : String :=
  "I\x27m sorry, I couldn\x27t generate a valid response."

/-- An HTTP response as observed by the caller: status code and the
response text (the generated answer on 200, the `detail` string on
errors). -/
structure HttpResp where
  status : Nat
  body : String
  deriving DecidableEq, Repr

namespace Legacy

/-- The exceptions that can leave app/chatbot.py `generate_response`:
a `ValueError` for a blank question (line 74, re-raised at line 96) or a
`RuntimeError` wrapping any unexpected failure (line 104). -/
inductive Err
  | valueError (msg : String)
  | runtimeError (msg : String)
  deriving DecidableEq, Repr

/-- app/chatbot.py `generate_response` (lines 68-104).  `backendResult`
injects the outcome of `chain.invoke` (line 85): either the parsed string
response or a raised exception with message `e`.  On success the exchange
is saved (line 88, `save_chat_history(question, response)`) and the
response returned unchanged — this legacy variant performs no result
normalization. -/
def generate_response (backendResult : Except String String)
    (db : List Row) (question : String) : Except Err (String × List Row) :=
  if (pyStrip question).isEmpty then
    .error (.valueError "Question cannot be empty.")
  else
    match backendResult with
    | .error e => .error (.runtimeError ("Chatbot failed to generate response: " ++ e))
    | .ok response => .ok (response, Sqlite.save_chat_history db question response)

/-- app/main.py `chat` endpoint (lines 91-140).  A successful call returns
200 with the response; `ValueError` maps to 400 with
`f"Invalid input: {val_err}"` (line 132); any other exception maps to 500
with the fixed generic detail (line 140).  The store is returned alongside
to observe persistence. -/
def chat (backendResult : Except String String) (db : List Row)
    (question : String) : HttpResp × List Row :=
  match generate_response backendResult db question with
  | .ok (resp, db2) => (⟨200, resp⟩, db2)
  | .error (.valueError m) => (⟨400, "Invalid input: " ++ m⟩, db)
  | .error (.runtimeError _) => (⟨500, "Internal server error occurred."⟩, db)

end Legacy

/-- A MongoDB chat_history document: `(session_id, user_input,
chatbot_response)`, in insertion order. -/
abbrev MongoStore := List (String × String × String)

/-- The value returned by `chain.ainvoke` in app/services/chatbot.py line
61: either a string or some non-string value (the code guards on
`isinstance(response, str)`). -/
inductive LLMValue
  | str (s : String)
  | nonStr
  deriving DecidableEq, Repr

/-- Modelled from the spec: app/core/exception.py is not under src/.
`AppException(e, sys)` is the application error wrapper raised by
app/services/chatbot.py line 73; per the spec (section 6), explicitly
classified application errors include their detail string, so its string
form is modelled as the wrapped exception message.  It is distinct from
`ValueError` (the spec, section 7, classifies ValidationError separately
from application errors, and the endpoint handles the two in separate
branches). -/
structure AppException where
  msg : String
  deriving DecidableEq, Repr

namespace Services

/-- Modelled from the spec: app/db/mango_database.py is not under src/.
`save_chat` durably appends one exchange for the session; the new document
receives the next insertion position. -/
def save_chat (store : MongoStore) (sid u r : String) : MongoStore :=
  store ++ [(sid, u, r)]

/-- Modelled from the spec: app/db/mango_database.py is not under src/.
`fetch_recent_chats` returns the most recent `limit` exchanges of the
session, oldest first, formatted one `User:`/`Assistant:` line pair per
exchange. -/
def fetch_recent_chats (store : MongoStore) (sid : String) (limit : Nat) : String :=
  pyJoin "\n" ((((store.filter (fun x => x.1 == sid)).reverse.take limit).reverse).map
    (fun x => "User: " ++ x.2.1 ++ "\nAssistant: " ++ x.2.2))

/-- The result normalization at app/services/chatbot.py lines 63-64:
`if not response or not isinstance(response, str)` substitute the fixed
fallback string. -/
def normalizeResult : LLMValue → String
  | .str s => if s = "" then fallbackResponse else s
  | .nonStr => fallbackResponse

/-- app/services/chatbot.py `Chatbot.generate_response` (lines 45-73).
`backendResult` injects the outcome of `chain.ainvoke` (line 61).  The
blank-question `ValueError` (line 49), like every other exception, is
caught by the single `except Exception` handler and re-raised as
`AppException(e, sys)` (line 73), so every failure leaves this function as
an `AppException`.  On success the normalized response is saved for the
session (line 67) and returned. -/
def generate_response (backendResult : Except String LLMValue)
    (store : MongoStore) (sessionId question : String) :
    Except AppException (String × MongoStore) :=
  if (pyStrip question).isEmpty then
    .error ⟨"Question cannot be empty."⟩
  else
    match backendResult with
    | .error e => .error ⟨e⟩
    | .ok v =>
      let response := normalizeResult v
      .ok (response, save_chat store sessionId question response)

end Services

/-- The request schema of app/api/fastapi_app.py lines 57-61:
`question: str = Field(..., min_length=1)`, `model`, `session_id`. -/
structure ChatRequest where
  question : String
  model : String
  session_id : String
  deriving DecidableEq, Repr

namespace Api

/-- app/api/fastapi_app.py `chat` endpoint (lines 71-85).  An empty
`question` fails the pydantic `min_length=1` validation before the handler
runs (422).  Inside the handler, a success returns 200 with the response;
an `AppException` maps to 500 with `detail=str(e)` (line 82).  The
`except ValueError` → 400 branch (line 80) is unreachable from
`Services.generate_response`, which only raises `AppException`; the final
`except Exception` → 500 generic branch is likewise unreachable in this
model. -/
def chat (backendResult : Except String LLMValue) (store : MongoStore)
    (req : ChatRequest) : HttpResp × MongoStore :=
  if req.question = "" then
    (⟨422, "Unprocessable Entity"⟩, store)
  else
    match Services.generate_response backendResult store req.session_id req.question with
    | .ok (resp, store2) => (⟨200, resp⟩, store2)
    | .error a => (⟨500, a.msg⟩, store)

end Api

/-! ## Theorems -/

/-- Merging the join separator into the following literal: used to compare
the assembled context with its closed form. -/
theorem newline_user_merge (x : String) :
    ("\n" : String) ++ ("User: " ++ x) = "\nUser: " ++ x := by
  rw [← String.append_assoc]; rfl

/-- C1: for every store state and every limit K, the adapter fetch returns
at most K exchanges; the returned sequence is a suffix of the
insertion-ordered history, hence in chronological oldest-to-newest order;
and it is exactly the reverse of the newest-first (ORDER BY id DESC) query
rows. -/
theorem fetch_recent_at_most_limit_and_chronological (db : List Row) (limit : Nat) :
    (fetchRows db limit).length ≤ limit ∧
    fetchRows db limit <:+ db ∧
    fetchRows db limit = (queryNewestFirst db limit).reverse := by
  refine ⟨?_, ⟨(db.reverse.drop limit).reverse, ?_⟩, rfl⟩
  · simp [fetchRows, queryNewestFirst, List.length_reverse]
  · simp only [fetchRows, queryNewestFirst]
    rw [← List.reverse_append, List.take_append_drop, List.reverse_reverse]

/-- C2: in the non-truncating adapters, the context assembled from the two
fetched exchanges (u1, r1), (u2, r2) is exactly one `User:` line and one
`Assistant:` line per exchange, pairs separated by a single newline, in
chronological order, with no other characters. -/
theorem context_two_exchanges_exact (u1 r1 u2 r2 : String) :
    Pg.fetch_chathistory none [(u1, r1), (u2, r2)] 2 =
      Except.ok ("User: " ++ u1 ++ "\nAssistant: " ++ r1 ++ "\n" ++
        "User: " ++ u2 ++ "\nAssistant: " ++ r2) := by
  simp [Pg.fetch_chathistory, plainContext, fetchRows, queryNewestFirst, plainEntry,
    pyJoin, String.append_assoc, newline_user_merge]

/-- C3: evaluating the async endpoint on a whitespace-only question yields
HTTP 500 (the `ValueError` is wrapped into `AppException`, bypassing the
400 handler) with the store unchanged, and on an empty question yields the
schema-validation status 422 — not the claimed 400. -/
theorem blank_question_gives_500_not_400 (backendResult : Except String LLMValue)
    (store : MongoStore) :
    Api.chat backendResult store ⟨" ", "gemini-2.5-flash", "s1"⟩ =
      (⟨500, "Question cannot be empty."⟩, store) ∧
    Api.chat backendResult store ⟨"", "gemini-2.5-flash", "s1"⟩ =
      (⟨422, "Unprocessable Entity"⟩, store) :=
  ⟨rfl, rfl⟩

/-- C4 counterexample: a driver error during the MySQL adapter fetch
propagates (`Except.error`) instead of yielding the empty context, so the
empty-on-failure contract does not hold identically across backends. -/
theorem mysql_fetch_error_propagates :
    MySqlWb.fetch_chathistory (some MySqlWb.Err.driver) [] 5 =
      Except.error MySqlWb.Err.driver ∧
    MySqlWb.fetch_chathistory (some MySqlWb.Err.driver) [] 5 ≠ Except.ok "" :=
  ⟨rfl, fun h => Except.noConfusion h⟩

/-- C4 amended: on a fetch failure the SQLite and RDS adapters return the
empty context for every error kind; the PostgreSQL adapter returns the
empty context only for non-driver errors and propagates driver errors; the
MySQL adapter propagates every error. -/
theorem fetch_failure_handling_by_backend (db : List Row) (limit outputLimit : Nat)
    (es : Sqlite.Err) (em : MySqlWb.Err) :
    Sqlite.fetch_recent_chats (some es) outputLimit db limit = Except.ok "" ∧
    Rds.fetch_recent_chats (some ()) db limit = Except.ok "" ∧
    Pg.fetch_chathistory (some Pg.Err.unexpected) db limit = Except.ok "" ∧
    Pg.fetch_chathistory (some Pg.Err.driver) db limit = Except.error Pg.Err.driver ∧
    MySqlWb.fetch_chathistory (some em) db limit = Except.error em :=
  ⟨rfl, rfl, rfl, rfl, rfl⟩

/-- C5 counterexample: the legacy service returns an empty backend result
unchanged and persists it, so `chatbot_response` can be empty. -/
theorem legacy_empty_backend_result_returned_and_persisted :
    Legacy.generate_response (Except.ok "") [] "hi" =
      Except.ok ("", [("hi", "")]) := rfl

/-- C5 amended: the async service substitutes the fixed fallback for empty
or non-string backend results and never returns or persists an empty
response; the legacy service performs no normalization and returns and
persists the backend result unchanged. -/
theorem normalization_async_only (store : MongoStore) (sid q s : String)
    (v : LLMValue) (db : List Row)
    (hq : (pyStrip q).isEmpty = false) :
    Services.generate_response (Except.ok v) store sid q =
      Except.ok (Services.normalizeResult v,
        store ++ [(sid, q, Services.normalizeResult v)]) ∧
    Services.normalizeResult v ≠ "" ∧
    Legacy.generate_response (Except.ok s) db q = Except.ok (s, db ++ [(q, s)]) := by
  refine ⟨?_, ?_, ?_⟩
  · simp [Services.generate_response, Services.save_chat, hq]
  · cases v with
    | str t =>
      rcases eq_or_ne t "" with ht | ht
      · subst ht; decide
      · simp [Services.normalizeResult, ht]
    | nonStr => decide
  · simp [Legacy.generate_response, Sqlite.save_chat_history, hq]

/-- Witness for C5 amended at concrete inputs. -/
theorem normalization_async_only_witness :
    (pyStrip "hi").isEmpty = false ∧
    (Services.generate_response (Except.ok (LLMValue.str "")) [] "s1" "hi" =
      Except.ok (Services.normalizeResult (LLMValue.str ""),
        [] ++ [("s1", "hi", Services.normalizeResult (LLMValue.str ""))]) ∧
     Services.normalizeResult (LLMValue.str "") ≠ "" ∧
     Legacy.generate_response (Except.ok "r") [] "hi" =
       Except.ok ("r", [] ++ [("hi", "r")])) :=
  ⟨by decide, normalization_async_only [] "s1" "hi" "r" (LLMValue.str "") [] (by decide)⟩

/-- C6: if the model backend raises, the legacy endpoint returns HTTP 500
and the persisted history is unchanged (the append runs only after a
successful model invocation). -/
theorem backend_failure_returns_500_and_preserves_store (db : List Row) (q m : String)
    (hq : (pyStrip q).isEmpty = false) :
    Legacy.chat (Except.error m) db q =
      (⟨500, "Internal server error occurred."⟩, db) := by
  simp [Legacy.chat, Legacy.generate_response, hq]

/-- Witness for C6 at concrete inputs. -/
theorem backend_failure_returns_500_and_preserves_store_witness :
    (pyStrip "hi").isEmpty = false ∧
    Legacy.chat (Except.error "boom") [("a", "b")] "hi" =
      (⟨500, "Internal server error occurred."⟩, [("a", "b")]) :=
  ⟨by decide,
   backend_failure_returns_500_and_preserves_store [("a", "b")] "hi" "boom" (by decide)⟩

/-- C7 counterexample: in the async endpoint a backend failure with message
`boom` produces a 500 whose detail is that internal message, not the fixed
generic detail. -/
theorem async_500_detail_contains_internal_text :
    (Api.chat (Except.error "boom") [] ⟨"hi", "gemini-2.5-flash", "s1"⟩).1 =
      ⟨500, "boom"⟩ ∧
    ("boom" : String) ≠ "Internal server error." :=
  ⟨rfl, by decide⟩

/-- C7 amended: the legacy endpoint maps every modelled non-validation
error to 500 with the fixed generic detail, while the async endpoint maps
a backend failure to 500 whose detail is the wrapped exception text. -/
theorem error_detail_policy_by_variant (db : List Row) (store : MongoStore)
    (q m model sid : String) (hq : (pyStrip q).isEmpty = false) :
    Legacy.chat (Except.error m) db q =
      (⟨500, "Internal server error occurred."⟩, db) ∧
    Api.chat (Except.error m) store ⟨q, model, sid⟩ = (⟨500, m⟩, store) := by
  have hq0 : q ≠ "" := by
    intro h; subst h; exact absurd hq (by decide)
  exact ⟨by simp [Legacy.chat, Legacy.generate_response, hq],
         by simp [Api.chat, hq0, Services.generate_response, hq]⟩

/-- Witness for C7 amended at concrete inputs. -/
theorem error_detail_policy_by_variant_witness :
    (pyStrip "hi").isEmpty = false ∧
    (Legacy.chat (Except.error "boom2") [] "hi" =
       (⟨500, "Internal server error occurred."⟩, []) ∧
     Api.chat (Except.error "boom2") [] ⟨"hi", "m", "s"⟩ = (⟨500, "boom2"⟩, [])) :=
  ⟨by decide, error_detail_policy_by_variant [] [] "hi" "boom2" "m" "s" (by decide)⟩

/-- C8: with `output_limit = 3` and stored response `hello`, the tail
slice yields `llo` and the formatted SQLite context line renders the
response as exactly those last three characters. -/
theorem output_limit_three_renders_tail_slice (u : String) :
    pySliceTail "hello" 3 = "llo" ∧
    Sqlite.fetchContext 3 [(u, "hello")] 5 =
      "User: " ++ u ++ "\n Assistant: " ++ "llo" :=
  ⟨rfl, rfl⟩

/-- C9: appending an exchange and immediately fetching with limit 1
returns exactly the just-appended exchange and nothing else. -/
theorem append_then_fetch_one_returns_it (db : List Row) (u r : String) :
    fetchRows (Sqlite.save_chat_history db u r) 1 = [(u, r)] := by
  simp [fetchRows, queryNewestFirst, Sqlite.save_chat_history, List.reverse_append]

/-- C10: with `output_limit = 0` the tail slice `response[-0:]` is the
whole string, so the formatted SQLite line contains the full response
rather than the empty string. -/
theorem output_limit_zero_keeps_full_response (u b : String) :
    Sqlite.renderEntry 0 (u, b) = "User: " ++ u ++ "\n Assistant: " ++ b ∧
    pySliceTail b 0 = b :=
  ⟨rfl, rfl⟩
